import Mathlib

/-!
Verification of the validation/provenance subsystem of evaluation_utils.py.

Conventions of the embedding:
- Python floats are modelled as exact rationals (for parsed text) and real
  numbers (for geometry and tolerance comparisons); decimal literals are read
  exactly, ignoring binary floating-point representation error.
- The regular expressions used by the extractors are embedded as deterministic
  character-list scanners.  For each of the three patterns this is faithful to
  Python's backtracking search: every point where the engine could backtrack is
  argued (in comments) to fail on all alternatives, so greedy maximal munch
  gives the same result.
- Network fetches (the second ISS sample of validate_iss, the wall clock of
  validate_result) are modelled as explicit arguments.
-/

/-- Whitespace class of the regex token \s, restricted to its ASCII members. -/
def isWsChar (c : Char) : Bool :=
  c == ' ' || c == '\t' || c == '\n' || c == '\r' || c == Char.ofNat 11 || c == Char.ofNat 12

/-- Value of a list of decimal digit characters. -/
def digitsToNat (ds : List Char) : ℕ :=
  ds.foldl (fun n c => 10 * n + (c.toNat - '0'.toNat)) 0

/-- Value of a token of shape digits [ dot digits ], read as an exact rational
(Python float(...) idealized to exact decimal reading). -/
def pyFloatOfUnsigned (t : List Char) : ℚ :=
  let intPart := t.takeWhile Char.isDigit
  let fracPart := ((t.dropWhile Char.isDigit).drop 1).takeWhile Char.isDigit
  mkRat (digitsToNat intPart * 10 ^ fracPart.length + digitsToNat fracPart)
    (10 ^ fracPart.length)

/-- Value of a token with an optional leading minus sign. -/
def pyFloatOfToken (t : List Char) : ℚ :=
  match t with
  | '-' :: r => -(pyFloatOfUnsigned r)
  | _ => pyFloatOfUnsigned t

/-- Matcher, at the current position, for the regex
digits+ (dot digits+)? ws* degreesign? ws* [dirs], case-insensitively on the
final letter, returning (numeric group, uppercased direction letter).
This is the common tail of the temperature pattern (dirs = C, F), the latitude
pattern (dirs = N, S) and the longitude pattern (dirs = E, W).
Determinism note: if the optional fractional part is present and the tail then
fails, Python would retry without the fractional part, but the next character
is then the dot, which cannot begin ws* degreesign? ws* [dirs]; digit runs are
taken maximally since no later element of the pattern can consume a digit.  So
the greedy scan below agrees with backtracking search. -/
def matchNumDirAt (dirs : List Char) (cs : List Char) : Option (List Char × Char) :=
  let intPart := cs.takeWhile Char.isDigit
  let rest1 := cs.dropWhile Char.isDigit
  if intPart.isEmpty then none
  else
    let numAndRest :=
      match rest1 with
      | '.' :: t =>
        if (t.takeWhile Char.isDigit).isEmpty then (intPart, rest1)
        else (intPart ++ '.' :: t.takeWhile Char.isDigit, t.dropWhile Char.isDigit)
      | _ => (intPart, rest1)
    let rest3 := numAndRest.2.dropWhile isWsChar
    let rest4 := match rest3 with | '°' :: t => t | _ => rest3
    let rest5 := rest4.dropWhile isWsChar
    match rest5 with
    | d :: _ => if dirs.contains d.toUpper then some (numAndRest.1, d.toUpper) else none
    | [] => none

/-- Matcher for minus? digits+ (dot digits+)? ws* degreesign? ws* [dirs]: the
temperature pattern.  The returned numeric group includes the sign.  If the
minus sign is consumed and the rest fails, Python retries without the sign,
which immediately fails on the minus sign itself. -/
def matchSignedNumDirAt (dirs : List Char) (cs : List Char) : Option (List Char × Char) :=
  match cs with
  | '-' :: t => (matchNumDirAt dirs t).map (fun p => ('-' :: p.1, p.2))
  | _ => matchNumDirAt dirs cs

/-- Python re.search: try the matcher at each successive start position,
including the empty tail, and return the first success. -/
def reSearch {α : Type} (matchAt : List Char → Option α) : List Char → Option α
  | [] => matchAt []
  | c :: cs =>
    match matchAt (c :: cs) with
    | some r => some r
    | none => reSearch matchAt cs

/-- Matcher for the token regex minus? digits+ dot digits+ (a number that must
contain a decimal point), returning the matched substring. -/
def matchFloatTokAt (cs : List Char) : Option (List Char) :=
  let signAndRest := match cs with | '-' :: t => ([('-' : Char)], t) | _ => ([], cs)
  let intPart := signAndRest.2.takeWhile Char.isDigit
  let rest1 := signAndRest.2.dropWhile Char.isDigit
  if intPart.isEmpty then none
  else
    match rest1 with
    | '.' :: t =>
      if (t.takeWhile Char.isDigit).isEmpty then none
      else some (signAndRest.1 ++ intPart ++ '.' :: t.takeWhile Char.isDigit)
    | _ => none

/-- Matcher for the token regex minus? digits+ (dot digits+)? (a number with an
optional fractional part), returning the matched substring. -/
def matchNumTokAt (cs : List Char) : Option (List Char) :=
  let signAndRest := match cs with | '-' :: t => ([('-' : Char)], t) | _ => ([], cs)
  let intPart := signAndRest.2.takeWhile Char.isDigit
  let rest1 := signAndRest.2.dropWhile Char.isDigit
  if intPart.isEmpty then none
  else
    match rest1 with
    | '.' :: t =>
      if (t.takeWhile Char.isDigit).isEmpty then some (signAndRest.1 ++ intPart)
      else some (signAndRest.1 ++ intPart ++ '.' :: t.takeWhile Char.isDigit)
    | _ => some (signAndRest.1 ++ intPart)

/-- Scanner for re.findall: skip counts characters still to be skipped past
the previous match, then each position is tried in turn; on a match the
scanner resumes after the matched text.  Structural recursion on the text. -/
def reFindAllAux (matchAt : List Char → Option (List Char)) :
    List Char → ℕ → List (List Char)
  | [], _ => []
  | _ :: cs, Nat.succ k => reFindAllAux matchAt cs k
  | c :: cs, 0 =>
    match matchAt (c :: cs) with
    | some tok => tok :: reFindAllAux matchAt cs (tok.length - 1)
    | none => reFindAllAux matchAt cs 0

/-- Python re.findall for a matcher whose returned token is exactly the text it
consumed: collect non-overlapping matches left to right, resuming after each
match (our matchers always consume at least one character). -/
def reFindAll (matchAt : List Char → Option (List Char)) (cs : List Char) :
    List (List Char) :=
  reFindAllAux matchAt cs 0

/-- Source _parse_temperature: first match of the signed-number-plus-unit
pattern with unit letter C or F, returning (value, uppercased unit). -/
def _parse_temperature (final_text : String) : Option ℚ × Option Char :=
  match reSearch (matchSignedNumDirAt ['C', 'F']) final_text.data with
  | none => (none, none)
  | some r => (some (pyFloatOfToken r.1), some r.2)

/-- Source _parse_lat_lon: if both the latitude pattern (unsigned number plus
N or S) and the longitude pattern (unsigned number plus E or W) match, negate
southern and western values; otherwise fall back to the first two numbers
containing a decimal point, in order of appearance. -/
def _parse_lat_lon (final_text : String) : Option ℚ × Option ℚ :=
  match reSearch (matchNumDirAt ['N', 'S']) final_text.data,
        reSearch (matchNumDirAt ['E', 'W']) final_text.data with
  | some latm, some lonm =>
    (some (if latm.2 = 'N' then pyFloatOfUnsigned latm.1 else -pyFloatOfUnsigned latm.1),
     some (if lonm.2 = 'E' then pyFloatOfUnsigned lonm.1 else -pyFloatOfUnsigned lonm.1))
  | _, _ =>
    match reFindAll matchFloatTokAt final_text.data with
    | a :: b :: _ => (some (pyFloatOfToken a), some (pyFloatOfToken b))
    | _ => (none, none)

/-- Loop body of _parse_exchange_rate: first token whose value lies in the
closed band from 1/10000 to 10. -/
def firstRateInBand : List (List Char) → Option ℚ
  | [] => none
  | t :: rest =>
    let value := pyFloatOfToken t
    if mkRat 1 10000 ≤ value ∧ value ≤ 10 then some value else firstRateInBand rest

/-- Source _parse_exchange_rate: scan all decimal tokens and return the first
whose (signed) value lies in the band. -/
def _parse_exchange_rate (final_text : String) : Option ℚ :=
  firstRateInBand (reFindAll matchNumTokAt final_text.data)

/-- Radians conversion, math.radians. -/
noncomputable def radians (x : ℝ) : ℝ := x * Real.pi / 180

open Classical in
/-- Two-argument arctangent, math.atan2, with the standard quadrant
conventions of the C library function. -/
noncomputable def atan2 (y x : ℝ) : ℝ :=
  if 0 < x then Real.arctan (y / x)
  else if x < 0 then
    (if 0 ≤ y then Real.arctan (y / x) + Real.pi else Real.arctan (y / x) - Real.pi)
  else
    (if 0 < y then Real.pi / 2 else if y < 0 then -(Real.pi / 2) else 0)

/-- Source _haversine_km: great-circle distance on a sphere of radius 6371 km. -/
noncomputable def _haversine_km (lat1 lon1 lat2 lon2 : ℝ) : ℝ :=
  let r : ℝ := 6371
  let p1 := radians lat1
  let p2 := radians lat2
  let dlat := radians (lat2 - lat1)
  let dlon := radians (lon2 - lon1)
  let a := Real.sin (dlat / 2) ^ 2 + Real.cos p1 * Real.cos p2 * Real.sin (dlon / 2) ^ 2
  let c := 2 * atan2 (Real.sqrt a) (Real.sqrt (1 - a))
  r * c

/-- Source _lerp: linear interpolation. -/
noncomputable def _lerp (a b t : ℝ) : ℝ := a + (b - a) * t

/-- Source _to_celsius: identity on Celsius, otherwise the Fahrenheit
conversion. -/
noncomputable def _to_celsius (value : ℝ) (unit : Char) : ℝ :=
  if unit = 'C' then value else (value - 32) * 5 / 9

open Classical in
/-- Rounding of a real to the nearest integer, ties to even, as Python round
does on exact values. -/
noncomputable def roundHalfEven (x : ℝ) : ℤ :=
  if Int.fract x < 1 / 2 then ⌊x⌋
  else if 1 / 2 < Int.fract x then ⌊x⌋ + 1
  else if ⌊x⌋ % 2 = 0 then ⌊x⌋ else ⌊x⌋ + 1

/-- Python round(x, ndigits), idealized to exact arithmetic. -/
noncomputable def pyRound (x : ℝ) (ndigits : ℕ) : ℝ :=
  (roundHalfEven (x * 10 ^ ndigits) : ℝ) / 10 ^ ndigits

/-- Canonical reference record: the union of the per-type canonical dict
shapes, a missing key being none. -/
structure Canonical where
  lat : Option ℝ := none
  lon : Option ℝ := none
  temp_c : Option ℝ := none
  timestamp : Option ℤ := none
  rate : Option ℝ := none
  base : Option String := none
  quote : Option String := none
  time_last_update_unix : Option ℤ := none

/-- Verdict dict returned by the validators: the union of all keys any of them
writes, a missing key being none. -/
structure Verdict where
  valid : Option Bool := none
  reason : Option String := none
  expected_temp_c : Option ℝ := none
  predicted_temp_c : Option ℝ := none
  diff_c : Option ℝ := none
  max_diff_c : Option ℝ := none
  predicted_lat : Option ℝ := none
  predicted_lon : Option ℝ := none
  expected_lat : Option ℝ := none
  expected_lon : Option ℝ := none
  distance_km : Option ℝ := none
  max_km : Option ℝ := none
  expected_rate : Option ℝ := none
  predicted_rate : Option ℝ := none
  diff : Option ℝ := none
  max_diff : Option ℝ := none
  base : Option String := none
  quote : Option String := none
  canonical_update_unix : Option ℤ := none
  allowed_km : Option ℝ := none
  delta_s : Option ℤ := none
  eval_time_unix : Option ℤ := none
  canonical_t0_unix : Option ℤ := none
  canonical_t1_unix : Option ℤ := none
  method : Option String := none

open Classical in
/-- Source validate_weather: extraction first, then canonical temperature,
then tolerance comparison in Celsius. -/
noncomputable def validate_weather (final_text : String) (canonical : Canonical)
    (max_diff_c : ℝ) : Verdict :=
  match _parse_temperature final_text with
  | (some observed_temp, some unit) =>
    match canonical.temp_c with
    | none => { valid := some false, reason := some "no_canonical_temperature" }
    | some expected_temp_c =>
      let predicted_temp_c := _to_celsius (observed_temp : ℝ) unit
      let diff_c := |predicted_temp_c - expected_temp_c|
      { valid := some (decide (diff_c ≤ max_diff_c)),
        expected_temp_c := some expected_temp_c,
        predicted_temp_c := some (pyRound predicted_temp_c 2),
        diff_c := some (pyRound diff_c 2),
        max_diff_c := some max_diff_c }
  | _ => { valid := some false, reason := some "no_temperature_found" }

open Classical in
/-- Source validate_location: canonical coordinates first, then extraction,
then Haversine distance against the tolerance. -/
noncomputable def validate_location (final_text : String) (canonical : Canonical)
    (max_km : ℝ) : Verdict :=
  match canonical.lat, canonical.lon with
  | some expected_lat, some expected_lon =>
    match _parse_lat_lon final_text with
    | (some lat, some lon) =>
      let dist := _haversine_km (lat : ℝ) (lon : ℝ) expected_lat expected_lon
      { valid := some (decide (dist ≤ max_km)),
        predicted_lat := some (lat : ℝ),
        predicted_lon := some (lon : ℝ),
        expected_lat := some expected_lat,
        expected_lon := some expected_lon,
        distance_km := some (pyRound dist 3),
        max_km := some max_km }
    | _ => { valid := some false, reason := some "no_coordinates_found" }
  | _, _ => { valid := some false, reason := some "no_canonical_coordinates" }

open Classical in
/-- Source validate_exchange_rate: canonical rate first, then extraction, then
absolute difference against the tolerance. -/
noncomputable def validate_exchange_rate (final_text : String) (canonical : Canonical)
    (max_diff : ℝ) : Verdict :=
  match canonical.rate with
  | none => { valid := some false, reason := some "no_canonical_rate" }
  | some expected_rate =>
    match _parse_exchange_rate final_text with
    | none => { valid := some false, reason := some "no_rate_found" }
    | some predicted_rate =>
      let diff := |expected_rate - (predicted_rate : ℝ)|
      { valid := some (decide (diff ≤ max_diff)),
        expected_rate := some expected_rate,
        predicted_rate := some (pyRound (predicted_rate : ℝ) 6),
        diff := some (pyRound diff 6),
        max_diff := some max_diff,
        base := canonical.base,
        quote := canonical.quote,
        canonical_update_unix := canonical.time_last_update_unix }

/-- Second ISS position sample, as returned by the live re-fetch that
validate_iss performs; modelled as an explicit argument. -/
structure IssSample where
  lat : ℝ
  lon : ℝ
  timestamp : ℤ

open Classical in
/-- Source validate_iss: extraction first, then the canonical snapshot fields;
the expected position is the snapshot within the grace window, the linear
interpolation when the evaluation time lies strictly between two distinct
sample times, and otherwise the chronologically nearer sample; valid iff the
Haversine distance is within the time-widened tolerance envelope.  The
network fetch of the second sample is the argument sample_1. -/
noncomputable def validate_iss (final_text : String) (canonical : Canonical)
    (eval_time_unix : ℤ) (base_km speed_kmps uncertainty_factor : ℝ)
    (grace_seconds : ℤ) (sample_1 : IssSample) : Verdict :=
  match _parse_lat_lon final_text with
  | (some pred_lat, some pred_lon) =>
    match canonical.timestamp, canonical.lat, canonical.lon with
    | some t0, some lat0, some lon0 =>
      let t1 := sample_1.timestamp
      let lat1 := sample_1.lat
      let lon1 := sample_1.lon
      let sel : ℝ × ℝ × String :=
        if |eval_time_unix - t0| ≤ grace_seconds then
          (lat0, lon0, "snapshot_near_eval")
        else if t1 ≠ t0 ∧ min t0 t1 ≤ eval_time_unix ∧ eval_time_unix ≤ max t0 t1 then
          let ratio : ℝ := ((eval_time_unix : ℝ) - (t0 : ℝ)) / ((t1 : ℝ) - (t0 : ℝ))
          (_lerp lat0 lat1 ratio, _lerp lon0 lon1 ratio, "interpolated")
        else if |eval_time_unix - t0| ≤ |eval_time_unix - t1| then
          (lat0, lon0, "nearest_snapshot_0")
        else
          (lat1, lon1, "nearest_snapshot_1")
      let distance_km := _haversine_km (pred_lat : ℝ) (pred_lon : ℝ) sel.1 sel.2.1
      let delta_s : ℤ := min |eval_time_unix - t0| |eval_time_unix - t1|
      let allowed_km := base_km + speed_kmps * (delta_s : ℝ) * uncertainty_factor
      { valid := some (decide (distance_km ≤ allowed_km)),
        predicted_lat := some (pred_lat : ℝ),
        predicted_lon := some (pred_lon : ℝ),
        expected_lat := some (pyRound sel.1 6),
        expected_lon := some (pyRound sel.2.1 6),
        distance_km := some (pyRound distance_km 3),
        allowed_km := some (pyRound allowed_km 3),
        delta_s := some delta_s,
        eval_time_unix := some eval_time_unix,
        canonical_t0_unix := some t0,
        canonical_t1_unix := some t1,
        method := some sel.2.2 }
    | _, _, _ => { valid := some false, reason := some "no_canonical_iss_snapshot" }
  | _ => { valid := some false, reason := some "no_coordinates_found" }

/-- Tolerance parameters of a prompt's validation dict; a missing key is none
and the caller applies the documented default. -/
structure ValidationCfg where
  max_diff_c : Option ℝ := none
  max_km : Option ℝ := none
  max_diff : Option ℝ := none
  base_km : Option ℝ := none
  speed_kmps : Option ℝ := none
  uncertainty_factor : Option ℝ := none
  grace_seconds : Option ℤ := none

/-- Prompt metadata consumed by validate_result: mandatory name, optional type
string, tolerance overrides. -/
structure PromptMeta where
  name : String
  type : Option String := none
  validation : ValidationCfg := {}

/-- One entry of the canonical snapshot. -/
structure SnapshotEntry where
  type : Option String := none
  query : Option String := none
  canonical : Canonical := {}

/-- Canonical snapshot: prompt name to entry map. -/
structure CanonicalSnapshot where
  prompts : List (String × SnapshotEntry) := []

open Classical in
/-- Source validate_result: dispatch on the prompt type string with the
documented tolerance defaults; unknown types yield a null verdict.  The wall
clock int(time.time()) is the argument now_unix and the live second ISS
sample is the argument iss_sample_1. -/
noncomputable def validate_result (prompt_meta : PromptMeta) (final_text : String)
    (canonical_snapshot : CanonicalSnapshot) (eval_time_unix : Option ℤ)
    (now_unix : ℤ) (iss_sample_1 : IssSample) : Verdict :=
  let canonical_entry := (canonical_snapshot.prompts.lookup prompt_meta.name).getD {}
  let canonical := canonical_entry.canonical
  let cfg := prompt_meta.validation
  let prompt_type := prompt_meta.type
  if prompt_type = some "weather" ∨ prompt_type = some "temperature" then
    validate_weather final_text canonical (cfg.max_diff_c.getD 3)
  else if prompt_type = some "location" then
    validate_location final_text canonical (cfg.max_km.getD 1)
  else if prompt_type = some "exchange_rate" then
    validate_exchange_rate final_text canonical (cfg.max_diff.getD (2 / 100))
  else if prompt_type = some "iss" then
    let eval_ts := eval_time_unix.getD now_unix
    validate_iss final_text canonical eval_ts (cfg.base_km.getD 100)
      (cfg.speed_kmps.getD (766 / 100)) (cfg.uncertainty_factor.getD (13 / 10))
      (cfg.grace_seconds.getD 10) iss_sample_1
  else { valid := none, reason := some "validation_not_implemented" }

/-- Source classify_provenance: null validity first, then the no-tool case,
then validity true, then the remaining case. -/
def classify_provenance (tool_used : Bool) (validation : Verdict) : String :=
  if validation.valid = none then
    if tool_used then "unverified_tool_used" else "unverified_parametric"
  else if !tool_used then "parametric"
  else if validation.valid = some true then "tool-assisted"
  else "hybrid_or_failed"

/-- C1 counterexample: with no tool used and a false verdict the classifier
returns parametric, not hybrid_or_failed as the claim states. -/
theorem c1_counterexample :
    classify_provenance false { valid := some false } = "parametric" ∧
    classify_provenance false { valid := some false } ≠ "hybrid_or_failed" := by
  decide

/-- C1 (amended): classify_provenance returns unverified_tool_used or
unverified_parametric when valid is null; otherwise, when no tool was used it
returns parametric regardless of the verdict; otherwise tool-assisted when
valid is true and hybrid_or_failed when valid is false. -/
theorem c1_classify_provenance_cases (tool_used : Bool) (v : Verdict) :
    (v.valid = none →
      classify_provenance tool_used v =
        if tool_used then "unverified_tool_used" else "unverified_parametric") ∧
    (v.valid ≠ none → tool_used = false →
      classify_provenance tool_used v = "parametric") ∧
    (v.valid = some true → tool_used = true →
      classify_provenance tool_used v = "tool-assisted") ∧
    (v.valid = some false → tool_used = true →
      classify_provenance tool_used v = "hybrid_or_failed") := by
  refine ⟨?_, ?_, ?_, ?_⟩
  · intro h
    simp [classify_provenance, h]
  · intro h ht
    subst ht
    simp [classify_provenance, h]
  · intro h ht
    subst ht
    simp [classify_provenance, h]
  · intro h ht
    subst ht
    simp [classify_provenance, h]

/-- C1 witness: a concrete instance of the amended classifier description. -/
theorem c1_classify_provenance_cases_witness :
    classify_provenance true { valid := some false } = "hybrid_or_failed" :=
  (c1_classify_provenance_cases true { valid := some false }).2.2.2 rfl rfl

/-- Squared sine of a half-angle is unchanged when the difference is reversed. -/
theorem sin_sq_half_radians_comm (x y : ℝ) :
    Real.sin (radians (x - y) / 2) ^ 2 = Real.sin (radians (y - x) / 2) ^ 2 := by
  rw [show radians (x - y) / 2 = -(radians (y - x) / 2) by unfold radians; ring]
  rw [Real.sin_neg, neg_sq]

/-- The haversine intermediate value is symmetric in the two points. -/
theorem haversine_a_symm (lat1 lon1 lat2 lon2 : ℝ) :
    Real.sin (radians (lat2 - lat1) / 2) ^ 2 +
      Real.cos (radians lat1) * Real.cos (radians lat2) *
        Real.sin (radians (lon2 - lon1) / 2) ^ 2 =
    Real.sin (radians (lat1 - lat2) / 2) ^ 2 +
      Real.cos (radians lat2) * Real.cos (radians lat1) *
        Real.sin (radians (lon1 - lon2) / 2) ^ 2 := by
  rw [sin_sq_half_radians_comm lat2 lat1, sin_sq_half_radians_comm lon2 lon1]
  ring

/-- Value of atan2 at the origin direction used by a zero distance. -/
theorem atan2_zero_one : atan2 0 1 = 0 := by
  unfold atan2
  rw [if_pos one_pos]
  rw [zero_div, Real.arctan_zero]

/-- C8: the Haversine distance is symmetric and vanishes on identical points. -/
theorem c8_haversine_symm_zero (lat1 lon1 lat2 lon2 : ℝ) :
    _haversine_km lat1 lon1 lat2 lon2 = _haversine_km lat2 lon2 lat1 lon1 ∧
    _haversine_km lat1 lon1 lat1 lon1 = 0 := by
  constructor
  · simp only [_haversine_km]
    rw [haversine_a_symm lat1 lon1 lat2 lon2]
  · simp only [_haversine_km, sub_self]
    rw [show radians 0 = 0 by unfold radians; ring]
    rw [zero_div, Real.sin_zero]
    norm_num
    exact atan2_zero_one

/-- C5 counterexample: the token -0.93 has magnitude inside the band, yet the
extractor returns nothing, because the code tests the signed value. -/
theorem c5_counterexample :
    reFindAll matchNumTokAt "-0.93".data = ["-0.93".data] ∧
    mkRat 1 10000 ≤ |pyFloatOfToken "-0.93".data| ∧
    |pyFloatOfToken "-0.93".data| ≤ 10 ∧
    _parse_exchange_rate "-0.93" = none := by
  decide

/-- C5 (amended): the exchange-rate extractor returns the first decimal token
whose signed value, not magnitude, lies in the closed band from 0.0001 to 10,
and nothing when no token's signed value does; in particular, for text
containing 2024 and 0.93 it returns 0.93. -/
theorem c5_exchange_rate_first_in_band (text : String) :
    _parse_exchange_rate text =
      ((reFindAll matchNumTokAt text.data).map pyFloatOfToken).find?
        (fun v => decide (mkRat 1 10000 ≤ v ∧ v ≤ 10)) ∧
    _parse_exchange_rate "In 2024 the rate was 0.93" = some (mkRat 93 100) := by
  constructor
  · unfold _parse_exchange_rate
    generalize reFindAll matchNumTokAt text.data = toks
    induction toks with
    | nil => rfl
    | cons t rest ih =>
      simp only [firstRateInBand, List.map_cons]
      by_cases h : mkRat 1 10000 ≤ pyFloatOfToken t ∧ pyFloatOfToken t ≤ 10
      · rw [if_pos h, List.find?_cons_of_pos _ (by simpa using h)]
      · rw [if_neg h, List.find?_cons_of_neg _ (by simpa using h), ih]
  · decide

/-- C3: every validator fails closed on missing extraction or missing
canonical data, returning valid = false with a machine-readable reason and
never substituting a default for the missing value. -/
theorem c3_validators_fail_closed (text : String) (c : Canonical)
    (mdc mk md bkm sp un : ℝ) (ev gr : ℤ) (s1 : IssSample) :
    (_parse_temperature text = (none, none) →
      validate_weather text c mdc =
        { valid := some false, reason := some "no_temperature_found" }) ∧
    (∀ v u, _parse_temperature text = (some v, some u) → c.temp_c = none →
      validate_weather text c mdc =
        { valid := some false, reason := some "no_canonical_temperature" }) ∧
    ((c.lat = none ∨ c.lon = none) →
      validate_location text c mk =
        { valid := some false, reason := some "no_canonical_coordinates" }) ∧
    (∀ la lo, c.lat = some la → c.lon = some lo → _parse_lat_lon text = (none, none) →
      validate_location text c mk =
        { valid := some false, reason := some "no_coordinates_found" }) ∧
    (c.rate = none →
      validate_exchange_rate text c md =
        { valid := some false, reason := some "no_canonical_rate" }) ∧
    (∀ r, c.rate = some r → _parse_exchange_rate text = none →
      validate_exchange_rate text c md =
        { valid := some false, reason := some "no_rate_found" }) ∧
    (_parse_lat_lon text = (none, none) →
      validate_iss text c ev bkm sp un gr s1 =
        { valid := some false, reason := some "no_coordinates_found" }) ∧
    (∀ la lo, _parse_lat_lon text = (some la, some lo) →
      (c.timestamp = none ∨ c.lat = none ∨ c.lon = none) →
      validate_iss text c ev bkm sp un gr s1 =
        { valid := some false, reason := some "no_canonical_iss_snapshot" }) := by
  refine ⟨?_, ?_, ?_, ?_, ?_, ?_, ?_, ?_⟩
  · intro h
    simp [validate_weather, h]
  · intro v u h htc
    simp [validate_weather, h, htc]
  · intro h
    rcases h with h | h
    · simp [validate_location, h]
    · cases hl : c.lat <;> simp [validate_location, hl, h]
  · intro la lo hla hlo h
    simp [validate_location, hla, hlo, h]
  · intro h
    simp [validate_exchange_rate, h]
  · intro r hr h
    simp [validate_exchange_rate, hr, h]
  · intro h
    simp [validate_iss, h]
  · intro la lo hparse h
    rcases h with h | h | h
    · simp [validate_iss, hparse, h]
    · cases ht : c.timestamp <;> simp [validate_iss, hparse, ht, h]
    · cases ht : c.timestamp <;> cases hl : c.lat <;>
        simp [validate_iss, hparse, ht, hl, h]

/-- C3 witness: concrete fail-closed verdicts for each validator. -/
theorem c3_validators_fail_closed_witness :
    validate_weather "no numbers here" {} 3 =
      { valid := some false, reason := some "no_temperature_found" } ∧
    validate_weather "25.5 C" {} 3 =
      { valid := some false, reason := some "no_canonical_temperature" } ∧
    validate_location "1.5 2.5" {} 1 =
      { valid := some false, reason := some "no_canonical_coordinates" } ∧
    validate_location "no numbers here" { lat := some 1, lon := some 2 } 1 =
      { valid := some false, reason := some "no_coordinates_found" } ∧
    validate_exchange_rate "0.5" {} (2 / 100) =
      { valid := some false, reason := some "no_canonical_rate" } ∧
    validate_exchange_rate "no numbers here" { rate := some 1 } (2 / 100) =
      { valid := some false, reason := some "no_rate_found" } ∧
    validate_iss "no numbers here" {} 0 100 (766 / 100) (13 / 10) 10 ⟨0, 0, 0⟩ =
      { valid := some false, reason := some "no_coordinates_found" } ∧
    validate_iss "1.5 2.5" {} 0 100 (766 / 100) (13 / 10) 10 ⟨0, 0, 0⟩ =
      { valid := some false, reason := some "no_canonical_iss_snapshot" } :=
  ⟨(c3_validators_fail_closed "no numbers here" {} 3 1 1 100 1 1 0 10 ⟨0, 0, 0⟩).1
      (by decide),
   (c3_validators_fail_closed "25.5 C" {} 3 1 1 100 1 1 0 10 ⟨0, 0, 0⟩).2.1
      (mkRat 51 2) 'C' (by decide) rfl,
   (c3_validators_fail_closed "1.5 2.5" {} 3 1 1 100 1 1 0 10 ⟨0, 0, 0⟩).2.2.1
      (Or.inl rfl),
   (c3_validators_fail_closed "no numbers here" { lat := some 1, lon := some 2 }
      3 1 1 100 1 1 0 10 ⟨0, 0, 0⟩).2.2.2.1 1 2 rfl rfl (by decide),
   (c3_validators_fail_closed "0.5" {} 3 1 (2 / 100) 100 1 1 0 10 ⟨0, 0, 0⟩).2.2.2.2.1
      rfl,
   (c3_validators_fail_closed "no numbers here" { rate := some 1 } 3 1 (2 / 100)
      100 1 1 0 10 ⟨0, 0, 0⟩).2.2.2.2.2.1 1 rfl (by decide),
   (c3_validators_fail_closed "no numbers here" {} 3 1 1 100 (766 / 100) (13 / 10)
      0 10 ⟨0, 0, 0⟩).2.2.2.2.2.2.1 (by decide),
   (c3_validators_fail_closed "1.5 2.5" {} 3 1 1 100 (766 / 100) (13 / 10)
      0 10 ⟨0, 0, 0⟩).2.2.2.2.2.2.2 (mkRat 3 2) (mkRat 5 2) (by decide)
      (Or.inl rfl)⟩

/-- C10: when both the extraction and the needed canonical data are missing,
the reason reflects each validator's check order: extraction-first for the
weather and ISS validators, canonical-first for the location and
exchange-rate validators. -/
theorem c10_reason_reflects_check_order (text : String) (c : Canonical)
    (mdc mk md bkm sp un : ℝ) (ev gr : ℤ) (s1 : IssSample)
    (htmp : _parse_temperature text = (none, none))
    (hll : _parse_lat_lon text = (none, none))
    (hrate : _parse_exchange_rate text = none)
    (hctmp : c.temp_c = none) (hclat : c.lat = none) (hclon : c.lon = none)
    (hcts : c.timestamp = none) (hcrate : c.rate = none) :
    (validate_weather text c mdc).reason = some "no_temperature_found" ∧
    (validate_iss text c ev bkm sp un gr s1).reason = some "no_coordinates_found" ∧
    (validate_location text c mk).reason = some "no_canonical_coordinates" ∧
    (validate_exchange_rate text c md).reason = some "no_canonical_rate" := by
  refine ⟨?_, ?_, ?_, ?_⟩
  · simp [validate_weather, htmp]
  · simp [validate_iss, hll]
  · simp [validate_location, hclat]
  · simp [validate_exchange_rate, hcrate]

/-- C10 witness: the divergent reasons on an empty answer and an empty
canonical record. -/
theorem c10_reason_reflects_check_order_witness :
    (validate_weather "" {} 3).reason = some "no_temperature_found" ∧
    (validate_iss "" {} 0 100 (766 / 100) (13 / 10) 10 ⟨0, 0, 0⟩).reason =
      some "no_coordinates_found" ∧
    (validate_location "" {} 1).reason = some "no_canonical_coordinates" ∧
    (validate_exchange_rate "" {} (2 / 100)).reason = some "no_canonical_rate" :=
  c10_reason_reflects_check_order "" {} 3 1 (2 / 100) 100 (766 / 100) (13 / 10)
    0 10 ⟨0, 0, 0⟩ (by decide) (by decide) (by decide) rfl rfl rfl rfl rfl

/-- C4: validate_result on a prompt whose type is none of the five verifiable
types returns a verdict with null validity and a reason, never false. -/
theorem c4_validate_result_unknown_type (meta : PromptMeta) (text : String)
    (snap : CanonicalSnapshot) (et : Option ℤ) (now : ℤ) (s1 : IssSample)
    (h : meta.type ∉ [some "weather", some "temperature", some "location",
      some "exchange_rate", some "iss"]) :
    validate_result meta text snap et now s1 =
      { valid := none, reason := some "validation_not_implemented" } := by
  simp only [List.mem_cons, List.not_mem_nil, or_false, not_or] at h
  obtain ⟨h1, h2, h3, h4, h5⟩ := h
  simp [validate_result, h1, h2, h3, h4, h5]

/-- C4 witness: a concrete experimental prompt type. -/
theorem c4_validate_result_unknown_type_witness :
    validate_result { name := "p", type := some "experimental" } "" {} none 0 ⟨0, 0, 0⟩ =
      { valid := none, reason := some "validation_not_implemented" } :=
  c4_validate_result_unknown_type { name := "p", type := some "experimental" }
    "" {} none 0 ⟨0, 0, 0⟩ (by decide)

/-- C6: when a temperature is extracted and a canonical temperature exists,
validate_weather converts to Celsius (identity for C, the affine map for F)
and accepts exactly when the absolute difference is within the tolerance. -/
theorem c6_validate_weather_tolerance (text : String) (c : Canonical) (m : ℝ)
    (v : ℚ) (u : Char) (tc : ℝ)
    (hparse : _parse_temperature text = (some v, some u))
    (htc : c.temp_c = some tc) :
    ((validate_weather text c m).valid = some true ↔
      |_to_celsius (v : ℝ) u - tc| ≤ m) ∧
    (∀ x : ℝ, _to_celsius x 'C' = x) ∧
    (∀ x : ℝ, _to_celsius x 'F' = (x - 32) * 5 / 9) := by
  refine ⟨?_, fun x => by simp [_to_celsius], fun x => by simp [_to_celsius]⟩
  simp [validate_weather, hparse, htc]

/-- C6 witness: a Celsius reading two and a half degrees off is accepted at
tolerance three exactly by the difference test. -/
theorem c6_validate_weather_tolerance_witness :
    (validate_weather "25.5 C" { temp_c := some 24 } 3).valid = some true ↔
      |_to_celsius ((mkRat 51 2 : ℚ) : ℝ) 'C' - 24| ≤ 3 :=
  (c6_validate_weather_tolerance "25.5 C" { temp_c := some 24 } 3 (mkRat 51 2) 'C' 24
    (by decide) rfl).1

/-- C7: validate_location accepts exactly when the Haversine distance between
the extracted and canonical coordinates is within the tolerance, with reason
no_canonical_coordinates when the canonical coordinates are missing and
no_coordinates_found when the canonical coordinates are present but extraction
fails. -/
theorem c7_validate_location_tolerance (text : String) (c : Canonical) (m : ℝ) :
    (∀ elat elon plat plon, c.lat = some elat → c.lon = some elon →
      _parse_lat_lon text = (some plat, some plon) →
      ((validate_location text c m).valid = some true ↔
        _haversine_km (plat : ℝ) (plon : ℝ) elat elon ≤ m)) ∧
    ((c.lat = none ∨ c.lon = none) →
      (validate_location text c m).reason = some "no_canonical_coordinates") ∧
    (∀ elat elon, c.lat = some elat → c.lon = some elon →
      _parse_lat_lon text = (none, none) →
      (validate_location text c m).reason = some "no_coordinates_found") := by
  refine ⟨?_, ?_, ?_⟩
  · intro elat elon plat plon hla hlo hparse
    simp [validate_location, hla, hlo, hparse]
  · intro h
    rcases h with h | h
    · simp [validate_location, h]
    · cases hl : c.lat <;> simp [validate_location, hl, h]
  · intro elat elon hla hlo hparse
    simp [validate_location, hla, hlo, hparse]

/-- C7 witness: a compass-form answer against canonical Paris coordinates. -/
theorem c7_validate_location_tolerance_witness :
    (validate_location "48.8566 N, 2.3522 E"
        { lat := some 48, lon := some 2 } 1).valid = some true ↔
      _haversine_km ((mkRat 244283 5000 : ℚ) : ℝ) ((mkRat 11761 5000 : ℚ) : ℝ) 48 2 ≤ 1 :=
  (c7_validate_location_tolerance "48.8566 N, 2.3522 E"
    { lat := some 48, lon := some 2 } 1).1 48 2 (mkRat 244283 5000) (mkRat 11761 5000)
    rfl rfl (by decide)

/-- C9 counterexample: the latitude compass pattern does match the signed form
-33.9 S (it matches its unsigned suffix), contrary to the claim; consequently
a text whose numbers are negative but whose compass letters say north and east
is parsed through the compass branch with positive signs, not through the
decimal fallback, which would have produced the negative values. -/
theorem c9_counterexample :
    (reSearch (matchNumDirAt ['N', 'S']) "-33.9 S".data).isSome = true ∧
    _parse_lat_lon "-33.9 N, 18.4 E" = (some (mkRat 339 10), some (mkRat 92 5)) ∧
    (mkRat 339 10 ≠ -mkRat 339 10) := by
  decide

/-- C9 (amended): when the latitude pattern and the longitude pattern do not
both match, a lone compass match is discarded and the parser returns the first
two numbers containing a decimal point, in order of appearance, or none when
fewer than two exist; note the compass patterns ignore a leading minus sign,
so -33.9 S alone still matches the latitude pattern (as 33.9 S) yet falls
through because no longitude pattern matches. -/
theorem c9_lat_lon_fallback (text : String)
    (h : reSearch (matchNumDirAt ['N', 'S']) text.data = none ∨
      reSearch (matchNumDirAt ['E', 'W']) text.data = none) :
    _parse_lat_lon text =
      (match reFindAll matchFloatTokAt text.data with
       | a :: b :: _ => (some (pyFloatOfToken a), some (pyFloatOfToken b))
       | _ => (none, none)) ∧
    _parse_lat_lon "-33.9 S" = (none, none) := by
  refine ⟨?_, by decide⟩
  rcases h with h | h
  · simp only [_parse_lat_lon, h]
  · cases hlat : reSearch (matchNumDirAt ['N', 'S']) text.data <;>
      simp only [_parse_lat_lon, hlat, h]

/-- C9 witness: a text with no compass letters is parsed through the decimal
fallback. -/
theorem c9_lat_lon_fallback_witness :
    _parse_lat_lon "found -33.92 and 18.42 maybe" =
      (match reFindAll matchFloatTokAt "found -33.92 and 18.42 maybe".data with
       | a :: b :: _ => (some (pyFloatOfToken a), some (pyFloatOfToken b))
       | _ => (none, none)) ∧
    _parse_lat_lon "-33.9 S" = (none, none) :=
  c9_lat_lon_fallback "found -33.92 and 18.42 maybe" (Or.inl (by decide))

/-- With a nonnegative grace window, an evaluation time outside the window but
between the two sample times forces the sample times to differ. -/
theorem iss_bracketing_times_differ (e t0 t1 g : ℤ) (hg : 0 ≤ g)
    (h1 : ¬|e - t0| ≤ g) (hmin : min t0 t1 ≤ e) (hmax : e ≤ max t0 t1) :
    t1 ≠ t0 := by
  intro he
  apply h1
  rw [he] at hmin hmax
  simp only [min_self, max_self] at hmin hmax
  rw [le_antisymm hmax hmin, sub_self, abs_zero]
  exact hg

/-- C2: the ISS validator's three-way expected-position policy, for a
nonnegative grace window: the snapshot within the grace window, the
per-coordinate linear interpolation when the evaluation time lies between the
two sample times (inclusive, either order), the chronologically nearer sample
otherwise; in every case validity holds exactly when the Haversine distance to
the selected position is within base plus speed times the smaller time gap
times the uncertainty factor. -/
theorem c2_validate_iss_policy (text : String) (c : Canonical) (ev : ℤ)
    (bkm sp un : ℝ) (gr : ℤ) (s1 : IssSample) (plat plon : ℚ)
    (t0 : ℤ) (lat0 lon0 : ℝ)
    (hparse : _parse_lat_lon text = (some plat, some plon))
    (ht0 : c.timestamp = some t0) (hlat0 : c.lat = some lat0)
    (hlon0 : c.lon = some lon0) (hgr : 0 ≤ gr) :
    (|ev - t0| ≤ gr →
      (validate_iss text c ev bkm sp un gr s1).method = some "snapshot_near_eval" ∧
      ((validate_iss text c ev bkm sp un gr s1).valid = some true ↔
        _haversine_km (plat : ℝ) (plon : ℝ) lat0 lon0 ≤
          bkm + sp * ((min |ev - t0| |ev - s1.timestamp| : ℤ) : ℝ) * un)) ∧
    (¬|ev - t0| ≤ gr → min t0 s1.timestamp ≤ ev → ev ≤ max t0 s1.timestamp →
      (validate_iss text c ev bkm sp un gr s1).method = some "interpolated" ∧
      ((validate_iss text c ev bkm sp un gr s1).valid = some true ↔
        _haversine_km (plat : ℝ) (plon : ℝ)
          (_lerp lat0 s1.lat (((ev : ℝ) - (t0 : ℝ)) / ((s1.timestamp : ℝ) - (t0 : ℝ))))
          (_lerp lon0 s1.lon (((ev : ℝ) - (t0 : ℝ)) / ((s1.timestamp : ℝ) - (t0 : ℝ)))) ≤
          bkm + sp * ((min |ev - t0| |ev - s1.timestamp| : ℤ) : ℝ) * un)) ∧
    (¬|ev - t0| ≤ gr → ¬(min t0 s1.timestamp ≤ ev ∧ ev ≤ max t0 s1.timestamp) →
      (|ev - t0| ≤ |ev - s1.timestamp| →
        (validate_iss text c ev bkm sp un gr s1).method = some "nearest_snapshot_0" ∧
        ((validate_iss text c ev bkm sp un gr s1).valid = some true ↔
          _haversine_km (plat : ℝ) (plon : ℝ) lat0 lon0 ≤
            bkm + sp * ((min |ev - t0| |ev - s1.timestamp| : ℤ) : ℝ) * un)) ∧
      (|ev - s1.timestamp| < |ev - t0| →
        (validate_iss text c ev bkm sp un gr s1).method = some "nearest_snapshot_1" ∧
        ((validate_iss text c ev bkm sp un gr s1).valid = some true ↔
          _haversine_km (plat : ℝ) (plon : ℝ) s1.lat s1.lon ≤
            bkm + sp * ((min |ev - t0| |ev - s1.timestamp| : ℤ) : ℝ) * un))) := by
  refine ⟨?_, ?_, ?_⟩
  · intro h1
    simp only [validate_iss, hparse, ht0, hlat0, hlon0]
    rw [if_pos h1]
    simp
  · intro h1 hmin hmax
    have hne := iss_bracketing_times_differ ev t0 s1.timestamp gr hgr h1 hmin hmax
    simp only [validate_iss, hparse, ht0, hlat0, hlon0]
    rw [if_neg h1, if_pos ⟨hne, hmin, hmax⟩]
    simp
  · intro h1 h2
    have hn2 : ¬(s1.timestamp ≠ t0 ∧ min t0 s1.timestamp ≤ ev ∧ ev ≤ max t0 s1.timestamp) :=
      fun hc => h2 ⟨hc.2.1, hc.2.2⟩
    constructor
    · intro h3
      simp only [validate_iss, hparse, ht0, hlat0, hlon0]
      rw [if_neg h1, if_neg hn2, if_pos h3]
      simp
    · intro h3
      simp only [validate_iss, hparse, ht0, hlat0, hlon0]
      rw [if_neg h1, if_neg hn2, if_neg (not_le.mpr h3)]
      simp

/-- C2 witness: an evaluation time equal to the first sample time selects the
snapshot branch. -/
theorem c2_validate_iss_policy_witness :
    (validate_iss "10.5 20.5" { lat := some 1, lon := some 2, timestamp := some 100 }
        100 100 (766 / 100) (13 / 10) 10 ⟨3, 4, 200⟩).method =
      some "snapshot_near_eval" ∧
    ((validate_iss "10.5 20.5" { lat := some 1, lon := some 2, timestamp := some 100 }
        100 100 (766 / 100) (13 / 10) 10 ⟨3, 4, 200⟩).valid = some true ↔
      _haversine_km ((mkRat 21 2 : ℚ) : ℝ) ((mkRat 41 2 : ℚ) : ℝ) 1 2 ≤
        100 + (766 / 100) * ((min |(100 : ℤ) - 100| |(100 : ℤ) - 200| : ℤ) : ℝ) * (13 / 10)) :=
  (c2_validate_iss_policy "10.5 20.5"
    { lat := some 1, lon := some 2, timestamp := some 100 } 100 100 (766 / 100)
    (13 / 10) 10 ⟨3, 4, 200⟩ (mkRat 21 2) (mkRat 41 2) 100 1 2 (by decide) rfl rfl rfl
    (by decide)).1 (by decide)
